import Mathlib

/-!
Shallow embedding of the Email-Automation-UI admin console core:
the status projector, the safety guard, the recipient store facade and
the backend bridge, translated from `src/database.py`,
`src/operational_safety.py`, `src/backend_integration.py` and
`src/routes/control.py`, together with theorems settling the
specification claims about them.

Machine conventions: timestamps and elapsed times are modelled as `Nat`
seconds; Python dict lookups `d.get(k)` that may be absent are modelled
as `Option String`, with Python truthiness (`None` and `""` falsy);
Python exceptions are modelled with `Except String`.
-/

namespace EmailUI

/-! ## Status Projector (`src/database.py`, `src/operational_safety.py`) -/

/-- Translation of `UIDatabase._calculate_status` (src/database.py lines
145-156): derives the human-readable recipient status from the stored
`status` column and the aggregated has-replied flag. -/
def calculate_status (recipient_status : String) (has_replied : Bool) : String :=
  if has_replied then "Replied (sequence stopped)"
  else if recipient_status = "active" then "In sequence"
  else if recipient_status = "pending" then "Not started"
  else if recipient_status = "stopped" then "Stopped manually"
  else "Unknown"

/-- The derived-status mapping exactly as the specification words it
(spec §3 DerivedStatus): any replied step wins, else the stored status
drives the label, with a total "Unknown" fallback.  Written from the
spec sentence, to be compared with `calculate_status`. -/
def deriveStatusSpec (recipient_status : String) (r1 r2 r3 : Bool) : String :=
  if r1 || r2 || r3 then "Replied (sequence stopped)"
  else if recipient_status = "active" then "In sequence"
  else if recipient_status = "pending" then "Not started"
  else if recipient_status = "stopped" then "Stopped manually"
  else "Unknown"

/-- Aggregation of the per-step replied flags used by the facade's listing
query (`MAX(CASE WHEN es.replied = 1 THEN 1 ELSE 0 END)` in
`get_recipients_with_status`, src/database.py line 113): true iff any
step's replied flag is true. -/
def aggregate_replied (r1 r2 r3 : Bool) : Bool := r1 || r2 || r3

/-- Translation of `UserExperienceEnhancements.format_last_activity`
(src/operational_safety.py lines 124-142).  The input is the elapsed
time `now - last_activity`, in seconds, with `none` for an absent
timestamp; `days` and `secs` mirror Python's `timedelta.days` and
`timedelta.seconds` (whole days, and the remaining seconds within the
day). -/
def format_last_activity (elapsed : Option Nat) : String :=
  match elapsed with
  | none => "Never"
  | some e =>
    let days := e / 86400
    let secs := e % 86400
    if days > 0 then toString days ++ " days ago"
    else if secs > 3600 then toString (secs / 3600) ++ " hours ago"
    else if secs > 60 then toString (secs / 60) ++ " minutes ago"
    else "Just now"

/-- The last-activity formatting exactly as the specification words it
(spec §4.1): floor of each unit, preferring the largest applicable unit
(days when at least one whole day elapsed, else hours when at least one
whole hour, else minutes when at least one whole minute, else
"Just now").  Written from the spec sentence, to be compared with
`format_last_activity`. -/
def formatLastActivitySpec (elapsed : Option Nat) : String :=
  match elapsed with
  | none => "Never"
  | some e =>
    if e / 86400 ≥ 1 then toString (e / 86400) ++ " days ago"
    else if e / 3600 ≥ 1 then toString (e / 3600) ++ " hours ago"
    else if e / 60 ≥ 1 then toString (e / 60) ++ " minutes ago"
    else "Just now"

/-! ## Safety Guard (`src/operational_safety.py`) -/

/-- The control-action check exactly as the specification words it
(spec §4.2): rules in order — deny start when already running, deny
stop when already stopped, deny when a same-kind attempt was recorded
less than 60 seconds ago, otherwise allow.  Written from the spec
sentence, to be compared with `validate_scheduler_operation`. -/
def checkControlActionSpec (action : String) (currentlyRunning : Bool)
    (lastAttempt : Option Nat) (now : Nat) : Bool × String :=
  if action = "start" ∧ currentlyRunning then
    (false, "Scheduler is already running")
  else if action = "stop" ∧ ¬currentlyRunning then
    (false, "Scheduler is already stopped")
  else
    match lastAttempt with
    | some t =>
      if now < t + 60 then
        (false, "Please wait before " ++ action ++
          "ing the scheduler again (minimum 1 minute interval)")
      else (true, "Operation allowed")
    | none => (true, "Operation allowed")

/-- Translation of `OperationalSafety.validate_scheduler_operation`
(src/operational_safety.py lines 36-54).  `last_operation` is the
session-recorded timestamp of the last attempt of the *same* action
kind (`session.get(f'scheduler_last_{action}')`), `now` the current
time, both in seconds.  Returns `(allowed, reason)`. -/
def validate_scheduler_operation (action : String) (current_status : Bool)
    (last_operation : Option Nat) (now : Nat) : Bool × String :=
  if action = "start" && current_status then
    (false, "Scheduler is already running")
  else if action = "stop" && !current_status then
    (false, "Scheduler is already stopped")
  else
    match last_operation with
    | some last_time =>
      if now - last_time < 60 then
        (false, "Please wait before " ++ action ++
          "ing the scheduler again (minimum 1 minute interval)")
      else (true, "Operation allowed")
    | none => (true, "Operation allowed")

/-! ## Recipient Store Facade (`src/database.py`) -/

/-- Python `str.strip()`: the string with whitespace removed from both
ends (character-list formulation, so that concrete inputs evaluate). -/
def pyStrip (s : String) : String :=
  ⟨((s.data.dropWhile Char.isWhitespace).reverse.dropWhile Char.isWhitespace).reverse⟩

/-- Python `str.lower()`: character-wise lower-casing (character-list
formulation, so that concrete inputs evaluate). -/
def pyLower (s : String) : String :=
  ⟨s.data.map Char.toLower⟩

/-- A stored recipient row, as built by `UIDatabase.add_recipient`
(src/database.py lines 173-179). -/
structure Recipient where
  first_name : String
  company : String
  role : String
  email : String
  status : String
deriving Repr, DecidableEq

/-- Modelled from the spec: `Recipient.validate` lives in the external
`email_automation.db.models` package (not part of this repository's
sources); the spec's data model (§3) requires first name, company and a
non-empty email, so validation is modelled as those fields being
non-empty. -/
def Recipient.validate (r : Recipient) : Bool :=
  r.first_name ≠ "" && r.company ≠ "" && r.email ≠ ""

/-- One `email_sequence` row, as built by `UIDatabase.add_recipient`
(src/database.py lines 189-195): `sent_at` is absent until the external
scheduler sends the step, `scheduled_at` carries the placeholder
creation time. -/
structure EmailSequence where
  recipient_id : Nat
  step : Nat
  scheduled_at : Nat
  sent_at : Option Nat
deriving Repr, DecidableEq

/-- The persistent store visible to the facade: recipient rows keyed by
their numeric id, the sequence-step rows, and the next id the repository
will assign. -/
structure Store where
  recipients : List (Nat × Recipient)
  steps : List EmailSequence
  next_id : Nat
deriving Repr, DecidableEq

/-- The empty store. -/
def Store.empty : Store := ⟨[], [], 1⟩

/-- Modelled from the spec: `RecipientRepository.get_by_email` lives in
the external `email_automation` package; the spec's persistent-store
contract (§6) is plain `query(sql, params)`, so the lookup is modelled
as an exact match of the given string against the stored `email`
column. -/
def get_by_email (st : Store) (email : String) : Option (Nat × Recipient) :=
  st.recipients.find? (fun p => p.2.email = email)

/-- The input dictionary of `add_recipient`: each field is absent
(`none`) or a string; Python truthiness treats `None` and `""` alike. -/
structure RecipientData where
  first_name : Option String
  company : Option String
  role : Option String
  email : Option String
deriving Repr, DecidableEq

/-- Python truthiness of an optional string: `None` and `""` are falsy. -/
def truthy : Option String → Bool
  | none => false
  | some s => s ≠ ""

/-- The `Recipient` record `add_recipient` builds from its input
(src/database.py lines 173-179): names stripped, email stripped and
lower-cased, status `'pending'`. -/
def built_recipient (d : RecipientData) : Recipient :=
  { first_name := pyStrip (d.first_name.getD "")
    company := pyStrip (d.company.getD "")
    role := pyStrip (d.role.getD "")
    email := pyLower (pyStrip (d.email.getD ""))
    status := "pending" }

/-- The `email_sequence` rows `add_recipient` creates for a new
recipient (src/database.py lines 189-195): `for step in [1, 2, 3]`,
each with the placeholder `scheduled_at = now` and no `sent_at`. -/
def sequence_triple (rid now : Nat) : List EmailSequence :=
  [1, 2, 3].map (fun s =>
    { recipient_id := rid, step := s, scheduled_at := now, sent_at := none })

/-- The body of `UIDatabase.add_recipient` (src/database.py lines
158-198), inside its `try:` block, so a repository failure surfaces as
`Except.error`.  `db_beh` models whether the underlying repository
calls raise (`.error msg`) or succeed (`.ok ()`); it is consulted once
the code first touches storage (the duplicate lookup).  `now` is the
placeholder `datetime.now()` used for `scheduled_at`.  Note the
duplicate lookup is performed on the *raw* `recipient_data['email']`
(src/database.py line 168) while the stored row's email is normalized
(line 177). -/
def add_recipient_body (st : Store) (d : RecipientData) (now : Nat)
    (db_beh : Except String Unit) : Store × Except String (Bool × String) :=
  if !(truthy d.first_name && truthy d.company && truthy d.email) then
    (st, .ok (false, "Missing required fields"))
  else
    match db_beh with
    | .error m => (st, .error m)
    | .ok () =>
      let raw_email := d.email.getD ""
      match get_by_email st raw_email with
      | some _ =>
        (st, .ok (false, "Recipient with email " ++ raw_email ++ " already exists"))
      | none =>
        let r : Recipient := built_recipient d
        if !r.validate then (st, .ok (false, "Invalid recipient data"))
        else
          let rid := st.next_id
          ({ recipients := st.recipients ++ [(rid, r)]
             steps := st.steps ++ sequence_triple rid now
             next_id := rid + 1 },
           .ok (true, "Successfully added " ++ r.email))

/-- `UIDatabase.add_recipient` with its `except Exception` handler
(src/database.py lines 200-202): every raised exception becomes
`(False, "Database error: ...")`. -/
def add_recipient (st : Store) (d : RecipientData) (now : Nat)
    (db_beh : Except String Unit) : Store × (Bool × String) :=
  match add_recipient_body st d now db_beh with
  | (st', .ok r) => (st', r)
  | (st', .error m) => (st', (false, "Database error: " ++ m))

/-! ## Facade read paths (`src/database.py`) -/

/-- Dashboard metrics as returned by `get_dashboard_metrics`;
`last_updated` (`datetime.now()`) is carried as the `now` parameter of
the operation. -/
structure DashboardMetrics where
  total_recipients : Nat
  active_recipients : Nat
  replied_recipients : Nat
  pending_recipients : Nat
  scheduler_running : Bool
  last_updated : Nat
deriving Repr, DecidableEq

/-- Translation of `UIDatabase.get_dashboard_metrics` (src/database.py
lines 71-101).  `query_result` models `execute_query` on the counting
query: either the returned rows (each a 4-tuple of counts) or a raised
exception; the `except` handler returns the all-zero record. -/
def get_dashboard_metrics (query_result : Except String (List (Nat × Nat × Nat × Nat)))
    (now : Nat) : DashboardMetrics :=
  match query_result with
  | .ok results =>
    match results with
    | row :: _ =>
      { total_recipients := row.1, active_recipients := row.2.1,
        replied_recipients := row.2.2.1, pending_recipients := row.2.2.2,
        scheduler_running := false, last_updated := now }
    | [] =>
      { total_recipients := 0, active_recipients := 0, replied_recipients := 0,
        pending_recipients := 0, scheduler_running := false, last_updated := now }
  | .error _ =>
    { total_recipients := 0, active_recipients := 0, replied_recipients := 0,
      pending_recipients := 0, scheduler_running := false, last_updated := now }

/-- One row of the aggregation query used by
`get_recipients_with_status` (src/database.py lines 107-119): id, the
text columns, the stored status, the three per-step sent flags, the
aggregated replied flag and the last activity. -/
structure RecipientRow where
  id : Nat
  first_name : String
  company : String
  role : String
  email : String
  status : String
  first_mail_sent : Bool
  reminder1_sent : Bool
  reminder2_sent : Bool
  has_replied : Bool
  last_activity : Option Nat
deriving Repr, DecidableEq

/-- The UI-facing recipient record built by
`get_recipients_with_status` (src/database.py lines 125-137). -/
structure RecipientStatus where
  id : Nat
  first_name : String
  company : String
  role : String
  email : String
  first_mail_sent : Bool
  reminder1_sent : Bool
  reminder2_sent : Bool
  has_replied : Bool
  current_status : String
  last_activity : Option Nat
deriving Repr, DecidableEq

/-- Translation of `UIDatabase.get_recipients_with_status`
(src/database.py lines 103-143): maps each query row to a
`RecipientStatus` via `calculate_status`; the `except` handler returns
the empty list. -/
def get_recipients_with_status (query_result : Except String (List RecipientRow)) :
    List RecipientStatus :=
  match query_result with
  | .ok rows =>
    rows.map (fun row =>
      { id := row.id, first_name := row.first_name, company := row.company,
        role := row.role, email := row.email,
        first_mail_sent := row.first_mail_sent,
        reminder1_sent := row.reminder1_sent,
        reminder2_sent := row.reminder2_sent,
        has_replied := row.has_replied,
        current_status := calculate_status row.status row.has_replied,
        last_activity := row.last_activity })
  | .error _ => []

/-! ## Backend Bridge (`src/backend_integration.py`) -/

/-- The `BackendIntegration` instance fields (src/backend_integration.py
lines 21-26); each `Option Nat` is a handle, `none` meaning Python
`None`. -/
structure BIState where
  config : Option Nat
  db_manager : Option Nat
  scheduler : Option Nat
  reply_tracker : Option Nat
  app_instance : Option Nat
deriving Repr, DecidableEq

/-- The freshly constructed bridge: every field `None`
(pre-initialization, the spec's UNINITIALIZED state). -/
def BIState.uninitialized : BIState := ⟨none, none, none, none, none⟩

/-- Behaviour of the external backend during `_initialize_app`:
the `EmailAutomationApp(config)` construction (or an import) may raise
before `self._app_instance` is assigned; `app.initialize()` may raise
after it is assigned; on success the app exposes its (possibly absent)
scheduler and reply-tracker attributes. -/
inductive InitOutcome where
  | ctorFails (msg : String)
  | initFails (msg : String)
  | ok (sched reply : Option Nat)
deriving Repr, DecidableEq

/-- Translation of `BackendIntegration._initialize_app`
(src/backend_integration.py lines 142-159): assigns
`self._app_instance` *before* awaiting `initialize()`, copies the
scheduler and reply-tracker handles only on success, and re-raises any
failure. -/
def initialize_app (st : BIState) (o : InitOutcome) : BIState × Except String Unit :=
  match o with
  | .ctorFails m => (st, .error m)
  | .initFails m => ({ st with app_instance := some 1 }, .error m)
  | .ok sched reply =>
    ({ st with app_instance := some 1, scheduler := sched, reply_tracker := reply },
     .ok ())

/-- Behaviour of one underlying backend call (`scheduler.start()`,
`scheduler.shutdown()`, `process_due_emails()`, `scan_inbox()`):
it either completes or raises. -/
def CallBeh := Except String Unit

/-- Shared shape of the four bridged control operations
(src/backend_integration.py lines 78-140), inside their `try:` block:
lazily initialize when `self._app_instance` is falsy, then either run
the underlying call on the relevant handle or report it unavailable.
`handle` selects `_scheduler` or `_reply_tracker`; the strings are the
operation's own messages. -/
def bridged_op_body (handle : BIState → Option Nat) (ok_msg unavailable_msg : String)
    (st : BIState) (o : InitOutcome) (call : CallBeh) :
    BIState × Except String (Bool × String) :=
  let (st1, init_res) :=
    if st.app_instance.isNone then initialize_app st o else (st, .ok ())
  match init_res with
  | .error m => (st1, .error m)
  | .ok () =>
    match handle st1 with
    | some _ =>
      match call with
      | .ok () => (st1, .ok (true, ok_msg))
      | .error m => (st1, .error m)
    | none => (st1, .ok (false, unavailable_msg))

/-- The `except Exception` handler shared by the four bridged control
operations: every raised exception becomes `(False, prefix ++ msg)`. -/
def bridged_op_catch (msg_head : String)
    (r : BIState × Except String (Bool × String)) : BIState × (Bool × String) :=
  match r with
  | (st, .ok v) => (st, v)
  | (st, .error m) => (st, (false, msg_head ++ m))

/-- Translation of `BackendIntegration.start_scheduler`
(src/backend_integration.py lines 78-92). -/
def start_scheduler (st : BIState) (o : InitOutcome) (call : CallBeh) :
    BIState × (Bool × String) :=
  bridged_op_catch "Error starting scheduler: "
    (bridged_op_body BIState.scheduler "Scheduler started successfully"
      "Scheduler not available" st o call)

/-- Translation of `BackendIntegration.stop_scheduler`
(src/backend_integration.py lines 94-108). -/
def stop_scheduler (st : BIState) (o : InitOutcome) (call : CallBeh) :
    BIState × (Bool × String) :=
  bridged_op_catch "Error stopping scheduler: "
    (bridged_op_body BIState.scheduler "Scheduler stopped successfully"
      "Scheduler not available" st o call)

/-- Translation of `BackendIntegration.process_due_emails`
(src/backend_integration.py lines 110-124). -/
def process_due_emails (st : BIState) (o : InitOutcome) (call : CallBeh) :
    BIState × (Bool × String) :=
  bridged_op_catch "Error processing emails: "
    (bridged_op_body BIState.scheduler "Email processing completed"
      "Scheduler not available" st o call)

/-- Translation of `BackendIntegration.scan_for_replies`
(src/backend_integration.py lines 126-140). -/
def scan_for_replies (st : BIState) (o : InitOutcome) (call : CallBeh) :
    BIState × (Bool × String) :=
  bridged_op_catch "Error scanning replies: "
    (bridged_op_body BIState.reply_tracker "Reply scanning completed"
      "Reply tracker not available" st o call)

/-! ## Initialization race (`src/routes/control.py`)

`get_backend_instances` (src/routes/control.py lines 24-50) guards the
lazy initialization of the module-global `_app_instance` only with the
unsynchronized check `if not _app_instance:` — there is no lock, and
`BackendIntegration._initialize_app` is likewise unguarded.  We model
two requests each running that check-then-initialize sequence, with the
scheduler choosing the interleaving: each thread first *reads* the
shared global, then, if it saw `None`, *initializes* (assigns the
global and performs one initialization of the backend objects). -/

/-- The local state of one request running `get_backend_instances`:
its program counter (0 = about to read the global, 1 = about to act on
what it read, 2 = done) and the value of the `if not _app_instance:`
test it read. -/
structure RaceThread where
  pc : Nat
  saw_none : Bool
deriving Repr, DecidableEq

/-- The shared and per-thread state of two concurrent first calls:
the module-global `_app_instance`, the number of backend
initializations performed, and the two request threads. -/
structure RaceState where
  app_instance : Option Nat
  init_count : Nat
  t1 : RaceThread
  t2 : RaceThread
deriving Repr, DecidableEq

/-- Both requests poised to make their first call; no backend yet. -/
def RaceState.start : RaceState := ⟨none, 0, ⟨0, false⟩, ⟨0, false⟩⟩

/-- One atomic action of a thread: at pc 0 it evaluates
`not _app_instance`; at pc 1, if that test was true, it constructs and
initializes the backend app and publishes it in the global (one
initialization), otherwise it just returns the existing instance. -/
def race_thread_step (t : RaceThread) (inst : Option Nat) (cnt : Nat) :
    RaceThread × Option Nat × Nat :=
  match t.pc with
  | 0 => (⟨1, inst.isNone⟩, inst, cnt)
  | 1 =>
    if t.saw_none then (⟨2, t.saw_none⟩, some 1, cnt + 1)
    else (⟨2, t.saw_none⟩, inst, cnt)
  | _ => (t, inst, cnt)

/-- Run one scheduler choice: `false` steps thread 1, `true` steps
thread 2. -/
def race_step (s : RaceState) (tid : Bool) : RaceState :=
  if tid then
    let (t', inst', cnt') := race_thread_step s.t2 s.app_instance s.init_count
    { s with t2 := t', app_instance := inst', init_count := cnt' }
  else
    let (t', inst', cnt') := race_thread_step s.t1 s.app_instance s.init_count
    { s with t1 := t', app_instance := inst', init_count := cnt' }

/-- Execute a whole interleaving of the two first calls. -/
def race_run (schedule : List Bool) : RaceState :=
  schedule.foldl race_step RaceState.start

/-! ## Theorems for the claims -/

/-- C1: for every recipientStatus string and every combination of
per-step replied flags, the derived status is
"Replied (sequence stopped)" whenever any step's replied flag is true;
otherwise 'active' maps to "In sequence", 'pending' to "Not started",
'stopped' to "Stopped manually", and any other value to "Unknown" — the
function is total (a Lean function of these arguments) and never
raises. -/
theorem c1_derived_status (s : String) (r1 r2 r3 : Bool) :
    calculate_status s (aggregate_replied r1 r2 r3) = deriveStatusSpec s r1 r2 r3 := rfl

/-- C3: `validate_scheduler_operation` applies the spec's rules in
order for both actions (deny start when running, deny stop when
stopped, deny a same-kind attempt recorded less than 60 seconds ago,
otherwise allow); in particular stop with the scheduler running and a
last attempt 30 seconds ago is denied (cooldown) while the same call
with a last attempt 90 seconds ago is allowed. -/
theorem c3_control_action (action : String) (running : Bool)
    (last : Option Nat) (now : Nat)
    (h : action = "start" ∨ action = "stop") :
    validate_scheduler_operation action running last now =
      checkControlActionSpec action running last now
    ∧ validate_scheduler_operation "stop" true (some 70) 100 =
        (false,
          "Please wait before stoping the scheduler again (minimum 1 minute interval)")
    ∧ validate_scheduler_operation "stop" true (some 10) 100 =
        (true, "Operation allowed") := by
  refine ⟨?_, by decide, by decide⟩
  have he : ∀ t : Nat, (now - t < 60) = (now < t + 60) := fun t => propext (by omega)
  rcases h with h | h <;> subst h <;> cases running <;> cases last <;>
    simp [validate_scheduler_operation, checkControlActionSpec, he]

/-- Witness for C3 at a concrete input: stopping a running scheduler
with no recorded attempt is allowed. -/
theorem c3_control_action_witness :
    validate_scheduler_operation "stop" true none 100 =
      checkControlActionSpec "stop" true none 100 :=
  (c3_control_action "stop" true none 100 (Or.inr rfl)).1

/-- C9 counterexample: at an elapsed time of exactly one hour the code
reports "60 minutes ago", while the claimed floor-of-the-largest-
applicable-unit bucketing (`formatLastActivitySpec`) yields
"1 hours ago". -/
theorem c9_counterexample :
    format_last_activity (some 3600) = "60 minutes ago"
    ∧ formatLastActivitySpec (some 3600) = "1 hours ago"
    ∧ format_last_activity (some 3600) ≠ formatLastActivitySpec (some 3600) := by
  refine ⟨rfl, rfl, by decide⟩

/-- C9 amended: `format_last_activity` returns "Never" for an absent
timestamp and otherwise buckets with *strict* thresholds — days once a
whole day has elapsed, hours only when more than 3600 seconds (of the
current day) have elapsed, minutes only when more than 60 seconds have
elapsed, else "Just now" — so exactly one hour yields "60 minutes ago"
and exactly one minute yields "Just now"; the claim's examples hold:
90 seconds yields "1 minutes ago" and 2 days yields "2 days ago". -/
theorem c9_amended_last_activity (e : Nat) :
    format_last_activity none = "Never"
    ∧ (86400 ≤ e →
        format_last_activity (some e) = toString (e / 86400) ++ " days ago")
    ∧ (e < 86400 → 3600 < e →
        format_last_activity (some e) = toString (e / 3600) ++ " hours ago")
    ∧ (60 < e → e ≤ 3600 →
        format_last_activity (some e) = toString (e / 60) ++ " minutes ago")
    ∧ (e ≤ 60 → format_last_activity (some e) = "Just now")
    ∧ format_last_activity (some 90) = "1 minutes ago"
    ∧ format_last_activity (some 172800) = "2 days ago" := by
  refine ⟨rfl, ?_, ?_, ?_, ?_, rfl, rfl⟩
  · intro h
    have hd : 0 < e / 86400 := Nat.div_pos h (by norm_num)
    simp only [format_last_activity]
    rw [if_pos hd]
  · intro h1 h2
    have hd : e / 86400 = 0 := Nat.div_eq_of_lt h1
    have hm : e % 86400 = e := Nat.mod_eq_of_lt h1
    simp only [format_last_activity, hd, hm]
    rw [if_neg (by omega), if_pos h2]
  · intro h1 h2
    have hlt : e < 86400 := by omega
    have hd : e / 86400 = 0 := Nat.div_eq_of_lt hlt
    have hm : e % 86400 = e := Nat.mod_eq_of_lt hlt
    simp only [format_last_activity, hd, hm]
    rw [if_neg (by omega), if_neg (by omega), if_pos h1]
  · intro h
    have hlt : e < 86400 := by omega
    have hd : e / 86400 = 0 := Nat.div_eq_of_lt hlt
    have hm : e % 86400 = e := Nat.mod_eq_of_lt hlt
    simp only [format_last_activity, hd, hm]
    rw [if_neg (by omega), if_neg (by omega), if_neg (by omega)]

/-- Witness for C9's amended claim at concrete inputs: two hours give
"2 hours ago" and thirty seconds give "Just now". -/
theorem c9_amended_last_activity_witness :
    format_last_activity (some 7200) = "2 hours ago"
    ∧ format_last_activity (some 30) = "Just now" :=
  ⟨(c9_amended_last_activity 7200).2.2.1 (by norm_num) (by norm_num),
   (c9_amended_last_activity 30).2.2.2.2.1 (by norm_num)⟩

/-- C10: on a lower-layer failure, `get_dashboard_metrics` returns the
all-zero metrics record with `scheduler_running = false` and
`get_recipients_with_status` returns the empty list — exactly what an
empty database produces, so a caller cannot distinguish the two. -/
theorem c10_read_defaults (msg : String) (now : Nat) :
    get_dashboard_metrics (.error msg) now =
      { total_recipients := 0, active_recipients := 0, replied_recipients := 0,
        pending_recipients := 0, scheduler_running := false, last_updated := now }
    ∧ get_dashboard_metrics (.error msg) now = get_dashboard_metrics (.ok []) now
    ∧ get_recipients_with_status (.error msg) = []
    ∧ get_recipients_with_status (.error msg) =
        get_recipients_with_status (.ok []) :=
  ⟨rfl, rfl, rfl, rfl⟩

/-- C4 counterexample: the interleaving in which both first calls read
the unset `_app_instance` global before either initializes
(thread 1 reads, thread 2 reads, thread 1 initializes, thread 2
initializes) performs TWO initializations of the backend objects, not
exactly one — there is no lock or single-flight mechanism in
`get_backend_instances` or `_initialize_app`. -/
theorem c4_counterexample :
    (race_run [false, true, false, true]).init_count = 2
    ∧ (race_run [false, true, false, true]).init_count ≠ 1
    ∧ (race_run [false, true, false, true]).t1.pc = 2
    ∧ (race_run [false, true, false, true]).t2.pc = 2 := by decide

/-- C4 amended: initialization is guarded only by an unsynchronized
check of a global, so two overlapping first calls can each run
initialization; but whenever the two calls are serialized (either one
completing before the other starts), exactly one initialization runs,
the global is published, and the second call reuses it. -/
theorem c4_amended_serialized_calls :
    ((race_run [false, false, true, true]).init_count = 1
      ∧ (race_run [false, false, true, true]).app_instance = some 1
      ∧ (race_run [false, false, true, true]).t1.pc = 2
      ∧ (race_run [false, false, true, true]).t2.pc = 2)
    ∧ ((race_run [true, true, false, false]).init_count = 1
      ∧ (race_run [true, true, false, false]).app_instance = some 1
      ∧ (race_run [true, true, false, false]).t1.pc = 2
      ∧ (race_run [true, true, false, false]).t2.pc = 2) := by decide

/-- C5: evaluation of the code at the failing input.  When the first
bridged call's underlying `initialize()` raises, the error is surfaced,
but the bridge does NOT return to its pre-initialization state:
`_app_instance` remains set while `_scheduler` stays `None`, so a
subsequent call against a now-healthy backend skips re-initialization
and reports "Scheduler not available" instead of retrying — contrary
to the spec's `INITIALIZING --(failure)--> UNINITIALIZED` transition. -/
theorem c5_failed_init_not_reset :
    (start_scheduler BIState.uninitialized (.initFails "boom") (.ok ())).2 =
      (false, "Error starting scheduler: boom")
    ∧ (start_scheduler BIState.uninitialized (.initFails "boom") (.ok ())).1 ≠
        BIState.uninitialized
    ∧ (start_scheduler BIState.uninitialized (.initFails "boom") (.ok ())).1.app_instance =
        some 1
    ∧ (start_scheduler BIState.uninitialized (.initFails "boom") (.ok ())).1.scheduler =
        none
    ∧ (start_scheduler
        (start_scheduler BIState.uninitialized (.initFails "boom") (.ok ())).1
        (.ok (some 2) (some 3)) (.ok ())).2 =
        (false, "Scheduler not available") := by decide

/-- Helper: the shared `except` handler turns a raised body into a
`(False, prefix ++ msg)` result. -/
theorem bridged_catch_of_error (p m : String)
    (r : BIState × Except String (Bool × String)) (h : r.2 = .error m) :
    (bridged_op_catch p r).2 = (false, p ++ m) := by
  rcases r with ⟨st, res⟩
  simp only at h
  subst h
  rfl

/-- Helper: the shared `except` handler passes a completed body's
result through unchanged. -/
theorem bridged_catch_of_ok (p : String) (v : Bool × String)
    (r : BIState × Except String (Bool × String)) (h : r.2 = .ok v) :
    (bridged_op_catch p r).2 = v := by
  rcases r with ⟨st, res⟩
  simp only at h
  subst h
  rfl

/-- Helper: `add_recipient`'s `except` handler turns a raised body into
a `(False, "Database error: " ++ msg)` result. -/
theorem add_recipient_catch_of_error (st : Store) (d : RecipientData) (now : Nat)
    (db_beh : Except String Unit) (m : String)
    (h : (add_recipient_body st d now db_beh).2 = .error m) :
    (add_recipient st d now db_beh).2 = (false, "Database error: " ++ m) := by
  unfold add_recipient
  rcases hb : add_recipient_body st d now db_beh with ⟨st', res⟩
  rw [hb] at h
  simp only at h
  subst h
  rfl

/-- Helper: `add_recipient`'s `except` handler passes a completed
body's result through unchanged. -/
theorem add_recipient_catch_of_ok (st : Store) (d : RecipientData) (now : Nat)
    (db_beh : Except String Unit) (v : Bool × String)
    (h : (add_recipient_body st d now db_beh).2 = .ok v) :
    (add_recipient st d now db_beh).2 = v := by
  unfold add_recipient
  rcases hb : add_recipient_body st d now db_beh with ⟨st', res⟩
  rw [hb] at h
  simp only at h
  subst h
  rfl

/-- C6: no bridged control operation and no facade `addRecipient`
propagates a raw exception: for every behaviour of the underlying
backend, whenever the operation's uncaught body raises with message
`m`, the operation returns the `(success, message)` pair
`(false, <operation prefix> ++ m)`, and whenever the body completes
with a result the operation returns exactly that result. -/
theorem c6_exceptions_become_results (bi : BIState) (o : InitOutcome) (call : CallBeh)
    (st : Store) (d : RecipientData) (now : Nat) (db_beh : Except String Unit)
    (m : String) (v : Bool × String) :
    ((bridged_op_body BIState.scheduler "Scheduler started successfully"
        "Scheduler not available" bi o call).2 = .error m →
      (start_scheduler bi o call).2 = (false, "Error starting scheduler: " ++ m))
    ∧ ((bridged_op_body BIState.scheduler "Scheduler started successfully"
        "Scheduler not available" bi o call).2 = .ok v →
      (start_scheduler bi o call).2 = v)
    ∧ ((bridged_op_body BIState.scheduler "Scheduler stopped successfully"
        "Scheduler not available" bi o call).2 = .error m →
      (stop_scheduler bi o call).2 = (false, "Error stopping scheduler: " ++ m))
    ∧ ((bridged_op_body BIState.scheduler "Scheduler stopped successfully"
        "Scheduler not available" bi o call).2 = .ok v →
      (stop_scheduler bi o call).2 = v)
    ∧ ((bridged_op_body BIState.scheduler "Email processing completed"
        "Scheduler not available" bi o call).2 = .error m →
      (process_due_emails bi o call).2 = (false, "Error processing emails: " ++ m))
    ∧ ((bridged_op_body BIState.scheduler "Email processing completed"
        "Scheduler not available" bi o call).2 = .ok v →
      (process_due_emails bi o call).2 = v)
    ∧ ((bridged_op_body BIState.reply_tracker "Reply scanning completed"
        "Reply tracker not available" bi o call).2 = .error m →
      (scan_for_replies bi o call).2 = (false, "Error scanning replies: " ++ m))
    ∧ ((bridged_op_body BIState.reply_tracker "Reply scanning completed"
        "Reply tracker not available" bi o call).2 = .ok v →
      (scan_for_replies bi o call).2 = v)
    ∧ ((add_recipient_body st d now db_beh).2 = .error m →
      (add_recipient st d now db_beh).2 = (false, "Database error: " ++ m))
    ∧ ((add_recipient_body st d now db_beh).2 = .ok v →
      (add_recipient st d now db_beh).2 = v) := by
  exact ⟨fun h => bridged_catch_of_error _ m _ h,
         fun h => bridged_catch_of_ok _ v _ h,
         fun h => bridged_catch_of_error _ m _ h,
         fun h => bridged_catch_of_ok _ v _ h,
         fun h => bridged_catch_of_error _ m _ h,
         fun h => bridged_catch_of_ok _ v _ h,
         fun h => bridged_catch_of_error _ m _ h,
         fun h => bridged_catch_of_ok _ v _ h,
         fun h => add_recipient_catch_of_error st d now db_beh m h,
         fun h => add_recipient_catch_of_ok st d now db_beh v h⟩

/-- Witness for C6 at a concrete input: with an uninitialized bridge
whose backend construction raises "down", `start_scheduler` returns the
caught result rather than an exception. -/
theorem c6_exceptions_become_results_witness :
    (start_scheduler BIState.uninitialized (.ctorFails "down") (.ok ())).2 =
      (false, "Error starting scheduler: down") :=
  (c6_exceptions_become_results BIState.uninitialized (.ctorFails "down") (.ok ())
      Store.empty ⟨none, none, none, none⟩ 0 (.ok ()) "down" (true, "")).1 rfl

/-- Helper: `find?` on a list extended with a matching element, when no
earlier element matches, finds the new element. -/
theorem find?_append_singleton {α : Type} (p : α → Bool) (l : List α) (x : α)
    (h : l.find? p = none) (hx : p x = true) : (l ++ [x]).find? p = some x := by
  induction l with
  | nil => simp [List.find?, hx]
  | cons a as ih =>
    rw [List.cons_append]
    by_cases hpa : p a
    · rw [List.find?_cons_of_pos _ hpa] at h
      exact absurd h (by simp)
    · rw [List.find?_cons_of_neg _ hpa] at h
      rw [List.find?_cons_of_neg _ hpa]
      exact ih h

/-- Helper: when a required field is missing or empty, `add_recipient`
fails before touching storage, for every repository behaviour. -/
theorem add_recipient_missing_fields (st : Store) (d : RecipientData) (now : Nat)
    (db_beh : Except String Unit)
    (h : (truthy d.first_name && truthy d.company && truthy d.email) = false) :
    add_recipient st d now db_beh = (st, (false, "Missing required fields")) := by
  simp [add_recipient, add_recipient_body, h]

/-- Helper: when the duplicate lookup on the raw email finds an
existing row, `add_recipient` fails with the already-exists reason and
leaves the store unchanged. -/
theorem add_recipient_duplicate (st : Store) (d : RecipientData) (now : Nat)
    (hT : (truthy d.first_name && truthy d.company && truthy d.email) = true)
    (p : Nat × Recipient) (hfind : get_by_email st (d.email.getD "") = some p) :
    add_recipient st d now (.ok ()) =
      (st, (false, "Recipient with email " ++ d.email.getD "" ++ " already exists")) := by
  simp [add_recipient, add_recipient_body, hT, hfind]

/-- Helper: inversion of a successful `add_recipient` call — success
forces the repository to have completed, the required fields to be
present, the duplicate lookup to have missed and validation to have
passed, and the result appends exactly the new recipient row and its
step triple. -/
theorem add_recipient_success_inv (st : Store) (d : RecipientData) (now : Nat)
    (db_beh : Except String Unit)
    (h : (add_recipient st d now db_beh).2.1 = true) :
    db_beh = .ok () ∧
    (truthy d.first_name && truthy d.company && truthy d.email) = true ∧
    get_by_email st (d.email.getD "") = none ∧
    (built_recipient d).validate = true ∧
    add_recipient st d now db_beh =
      ({ recipients := st.recipients ++ [(st.next_id, built_recipient d)]
         steps := st.steps ++ sequence_triple st.next_id now
         next_id := st.next_id + 1 },
       (true, "Successfully added " ++ (built_recipient d).email)) := by
  by_cases hT : (truthy d.first_name && truthy d.company && truthy d.email) = true
  · cases db_beh with
    | error m =>
      exact absurd h (by simp [add_recipient, add_recipient_body, hT])
    | ok u =>
      cases u
      cases hfind : get_by_email st (d.email.getD "") with
      | some p =>
        exact absurd h (by simp [add_recipient, add_recipient_body, hT, hfind])
      | none =>
        by_cases hv : (built_recipient d).validate = true
        · refine ⟨rfl, hT, rfl, hv, ?_⟩
          simp [add_recipient, add_recipient_body, hT, hfind, hv]
        · exact absurd h (by
            simp [add_recipient, add_recipient_body, hT, hfind,
              Bool.eq_false_iff.mpr hv])
  · exact absurd h (by
      simp [add_recipient, add_recipient_body, Bool.eq_false_iff.mpr hT])

/-- C2 counterexample: two `addRecipient` calls whose email fields are
equal (hence equal after normalization) but not already lower-cased —
`"John@Acme.com"` both times — BOTH succeed: the duplicate lookup uses
the raw email while the stored row holds the normalized
`"john@acme.com"`, so the second call misses the duplicate and creates
a second recipient row and a second SequenceStep triple (6 step rows in
total). -/
theorem c2_counterexample :
    (add_recipient Store.empty
        ⟨some "John", some "Acme Corp", some "CEO", some "John@Acme.com"⟩
        100 (.ok ())).2.1 = true
    ∧ (add_recipient
        (add_recipient Store.empty
          ⟨some "John", some "Acme Corp", some "CEO", some "John@Acme.com"⟩
          100 (.ok ())).1
        ⟨some "John", some "Acme Corp", some "CEO", some "John@Acme.com"⟩
        200 (.ok ())).2.1 = true
    ∧ (add_recipient
        (add_recipient Store.empty
          ⟨some "John", some "Acme Corp", some "CEO", some "John@Acme.com"⟩
          100 (.ok ())).1
        ⟨some "John", some "Acme Corp", some "CEO", some "John@Acme.com"⟩
        200 (.ok ())).1.steps.length = 6 := by
  refine ⟨by decide, by decide, by decide⟩

/-- C2 amended: when the email passed in is already normalized
(lower-cased and trimmed, as the UI form layer produces), a first
successful `addRecipient` makes the second call with the same data fail
with the duplicate-specific "already exists" reason, leaving the store
— in particular the SequenceStep rows — unchanged; for emails that are
merely equal after normalization the duplicate can be missed (see the
counterexample). -/
theorem c2_amended_duplicate (st : Store) (d : RecipientData) (e : String)
    (n1 n2 : Nat) (he : d.email = some e) (hnorm : pyLower (pyStrip e) = e)
    (h1 : (add_recipient st d n1 (.ok ())).2.1 = true) :
    add_recipient (add_recipient st d n1 (.ok ())).1 d n2 (.ok ()) =
      ((add_recipient st d n1 (.ok ())).1,
        (false, "Recipient with email " ++ e ++ " already exists"))
    ∧ (add_recipient (add_recipient st d n1 (.ok ())).1 d n2 (.ok ())).1.steps =
        (add_recipient st d n1 (.ok ())).1.steps := by
  obtain ⟨-, hT, hfind, hv, heq⟩ := add_recipient_success_inv st d n1 (.ok ()) h1
  have hemail : (built_recipient d).email = e := by
    simp [built_recipient, he, hnorm]
  have hfind2 : get_by_email (add_recipient st d n1 (.ok ())).1 (d.email.getD "") =
      some (st.next_id, built_recipient d) := by
    rw [heq]
    unfold get_by_email
    apply find?_append_singleton
    · exact hfind
    · simp [hemail, he]
  have hdup := add_recipient_duplicate (add_recipient st d n1 (.ok ())).1 d n2 hT
    (st.next_id, built_recipient d) hfind2
  rw [he] at hdup
  simp only [Option.getD_some] at hdup
  exact ⟨hdup, by rw [hdup]⟩

/-- Witness for C2's amended claim at a concrete input: adding
`john@acme.com` twice — the second call fails with the already-exists
reason and changes nothing. -/
theorem c2_amended_duplicate_witness :
    add_recipient
        (add_recipient Store.empty
          ⟨some "John", some "Acme", some "CEO", some "john@acme.com"⟩ 5 (.ok ())).1
        ⟨some "John", some "Acme", some "CEO", some "john@acme.com"⟩ 6 (.ok ()) =
      ((add_recipient Store.empty
          ⟨some "John", some "Acme", some "CEO", some "john@acme.com"⟩ 5 (.ok ())).1,
       (false, "Recipient with email john@acme.com already exists")) :=
  (c2_amended_duplicate Store.empty
    ⟨some "John", some "Acme", some "CEO", some "john@acme.com"⟩
    "john@acme.com" 5 6 rfl (by decide) (by decide)).1

/-- C7: every successful `addRecipient` call creates exactly three
SequenceStep rows for the new recipient, numbered 1, 2 and 3, each with
the placeholder scheduled time and none marked sent. -/
theorem c7_sequence_triple_created (st : Store) (d : RecipientData) (now : Nat)
    (db_beh : Except String Unit)
    (h : (add_recipient st d now db_beh).2.1 = true) :
    (add_recipient st d now db_beh).1.steps =
      st.steps ++
        [{ recipient_id := st.next_id, step := 1, scheduled_at := now, sent_at := none },
         { recipient_id := st.next_id, step := 2, scheduled_at := now, sent_at := none },
         { recipient_id := st.next_id, step := 3, scheduled_at := now, sent_at := none }] := by
  rw [(add_recipient_success_inv st d now db_beh h).2.2.2.2]
  rfl

/-- Witness for C7 at a concrete input: the first recipient added to an
empty store gets exactly the step rows 1-3, unsent. -/
theorem c7_sequence_triple_created_witness :
    (add_recipient Store.empty
        ⟨some "John", some "Acme", some "CEO", some "john@acme.com"⟩ 7 (.ok ())).1.steps =
      Store.empty.steps ++
        [{ recipient_id := 1, step := 1, scheduled_at := 7, sent_at := none },
         { recipient_id := 1, step := 2, scheduled_at := 7, sent_at := none },
         { recipient_id := 1, step := 3, scheduled_at := 7, sent_at := none }] :=
  c7_sequence_triple_created Store.empty
    ⟨some "John", some "Acme", some "CEO", some "john@acme.com"⟩ 7 (.ok ()) (by decide)

/-- C8: whenever a required field (first name, company or email) is
missing or empty, `addRecipient` fails with the missing-fields reason
and performs zero storage writes — the store, including both recipient
rows and sequence-step rows, is returned unchanged, for every
repository behaviour. -/
theorem c8_missing_required_fields (st : Store) (d : RecipientData) (now : Nat)
    (db_beh : Except String Unit)
    (h : (d.first_name = none ∨ d.first_name = some "") ∨
         (d.company = none ∨ d.company = some "") ∨
         (d.email = none ∨ d.email = some "")) :
    add_recipient st d now db_beh = (st, (false, "Missing required fields")) := by
  apply add_recipient_missing_fields
  rcases h with (h | h) | (h | h) | (h | h) <;> rw [h] <;> simp [truthy]

/-- Witness for C8 at the spec's concrete input
`{first_name: "", company: "Acme", email: "a@b.com"}`. -/
theorem c8_missing_required_fields_witness :
    add_recipient Store.empty ⟨some "", some "Acme", none, some "a@b.com"⟩ 0 (.ok ()) =
      (Store.empty, (false, "Missing required fields")) :=
  c8_missing_required_fields Store.empty ⟨some "", some "Acme", none, some "a@b.com"⟩
    0 (.ok ()) (Or.inl (Or.inr rfl))

end EmailUI
